import Mathlib

/-!
Shallow embedding of the credential and token service of a Node/Express
backend: the user schema of models/User.js (password pre-save hook,
comparePassword, toJSON) and the auth route handlers signup, login,
refresh-token and logout, over an in-memory account store.
-/

/-- A JSON web token as produced by jwt.sign: a payload carrying the user id,
signed with a numeric secret and stamped with issue time and expiry
(iat + expiresIn), or a malformed string that fails verification. -/
inductive Token where
  | signed (userId : Nat) (iat : Nat) (exp : Nat) (secret : Nat)
  | malformed (s : String)
deriving DecidableEq, Repr

/-- jwt.sign: bind the user id, the current time and the configured lifetime
under the given secret. -/
def jwtSign (userId secret now expiresIn : Nat) : Token :=
  .signed userId now (now + expiresIn) secret

/-- jwt.verify: returns the embedded user id when the signature matches the
given secret and the token is unexpired at time now; fails (throws, modelled
as none) on a malformed token, a wrong secret or an expired token. -/
def jwtVerify (t : Token) (secret now : Nat) : Option Nat :=
  match t with
  | .signed uid _ exp s => if s = secret ∧ now < exp then some uid else none
  | .malformed _ => none

/-- Environment configuration read from process.env. -/
structure Env where
  jwtAccessSecret : Nat
  jwtRefreshSecret : Nat
  jwtAccessExpiresIn : Nat
  jwtRefreshExpiresIn : Nat
  bcryptRounds : Nat
deriving DecidableEq, Repr

/-- The pair issued by generateTokens. -/
structure TokenPair where
  accessToken : Token
  refreshToken : Token
deriving DecidableEq, Repr

/-- generateTokens of routes/auth: one access token and one refresh token,
each signing the user id with its own secret and lifetime. -/
def generateTokens (env : Env) (now userId : Nat) : TokenPair :=
  { accessToken := jwtSign userId env.jwtAccessSecret now env.jwtAccessExpiresIn
    refreshToken := jwtSign userId env.jwtRefreshSecret now env.jwtRefreshExpiresIn }

/-- Password-domain strings: a raw string, or the bcrypt hash (with rounds and
salt) of an underlying string. bcrypt.hash wraps; the hash is one-way in the
sense that no operation of the model unwraps it except bcrypt.compare. -/
inductive BStr where
  | raw (s : String)
  | hashed (rounds salt : Nat) (pre : BStr)
deriving DecidableEq, Repr

/-- bcrypt.hash with a salt generated by bcrypt.genSalt(rounds). -/
def bcryptHash (rounds salt : Nat) (p : BStr) : BStr := .hashed rounds salt p

/-- bcrypt.compare: a candidate matches a stored value exactly when the stored
value is a hash of that candidate; comparing against a non-hash fails. -/
def bcryptCompare (candidate stored : BStr) : Bool :=
  match stored with
  | .hashed _ _ pre => candidate == pre
  | .raw _ => false

/-- One entry of the refreshTokens array of the user schema. -/
structure RefreshTokenEntry where
  token : Token
  createdAt : Nat
deriving DecidableEq, Repr

/-- ASCII lowercasing, as the schema lowercase setter applies to the email
path (JavaScript toLowerCase restricted to the ASCII range). -/
def lowerChar (c : Char) : Char :=
  if 'A' ≤ c ∧ c ≤ 'Z' then Char.ofNat (c.toNat + 32) else c

/-- Lowercase an entire string. -/
def lowerString (s : String) : String := String.mk (s.data.map lowerChar)

/-- The trim setter of the schema (username, firstName, lastName paths):
strip leading and trailing whitespace. -/
def trimSetter (s : String) : String :=
  String.mk (((s.data.dropWhile Char.isWhitespace).reverse.dropWhile
    Char.isWhitespace).reverse)

/-- A stored user document (the schema paths the auth routes touch), plus the
mongoose dirty flag for the password path that drives the pre-save hook. -/
structure User where
  id : Nat
  username : String
  email : String
  password : BStr
  firstName : String
  lastName : String
  role : String
  isActive : Bool
  refreshTokens : List RefreshTokenEntry
  passwordModified : Bool
deriving DecidableEq, Repr

/-- new User: schema setters run (email lowercased, names trimmed), defaults
applied (role user, isActive true, no refresh tokens); a freshly constructed
document has every path, the password included, marked modified. -/
def newUser (id : Nat) (username email : String) (password : BStr)
    (firstName lastName : String) : User :=
  { id := id
    username := trimSetter username
    email := lowerString email
    password := password
    firstName := trimSetter firstName
    lastName := trimSetter lastName
    role := "user"
    isActive := true
    refreshTokens := []
    passwordModified := true }

/-- The pre-save hook of the user schema followed by the store write: when the
password path was modified, replace it by its bcrypt hash (salt freshly
generated with the configured rounds) and clear the dirty flag; otherwise the
document is written back unchanged. -/
def User.save (env : Env) (salt : Nat) (u : User) : User :=
  if u.passwordModified then
    { u with password := bcryptHash env.bcryptRounds salt u.password
             passwordModified := false }
  else u

/-- comparePassword instance method: bcrypt.compare of the candidate against
the stored password. -/
def User.comparePassword (u : User) (candidate : BStr) : Bool :=
  bcryptCompare candidate u.password

/-- The serialized user projection: toJSON deletes password, refreshTokens and
the password-reset fields, so the projection has no credential field. -/
structure UserJson where
  id : Nat
  username : String
  email : String
  firstName : String
  lastName : String
  role : String
  isActive : Bool
deriving DecidableEq, Repr

/-- toJSON instance method of the user schema. -/
def User.toJSON (u : User) : UserJson :=
  { id := u.id
    username := u.username
    email := u.email
    firstName := u.firstName
    lastName := u.lastName
    role := u.role
    isActive := u.isActive }

/-- Outcome of a route handler: an error response with HTTP status and
message, or a success payload. -/
inductive HttpOutcome (α : Type) where
  | err (status : Nat) (message : String)
  | ok (value : α)
deriving DecidableEq, Repr

/-- User.findOne on a disjunctive filter over email and username; the schema
setters (lowercase, trim) run on the query filter. -/
def findByEmailOrUsername (db : List User) (email username : String) : Option User :=
  db.find? fun u => u.email == lowerString email || u.username == trimSetter username

/-- User.findOne on the email filter (lowercase setter runs on the filter). -/
def findByEmail (db : List User) (email : String) : Option User :=
  db.find? fun u => u.email == lowerString email

/-- User.findById. -/
def findById (db : List User) (id : Nat) : Option User :=
  db.find? fun u => u.id == id

/-- Write one user document back to the store, keyed by id. -/
def updateById (db : List User) (w : User) : List User :=
  db.map fun v => if v.id == w.id then w else v

/-- Success payload of signup and login: the serialized user and the pair. -/
structure AuthSuccess where
  user : UserJson
  accessToken : Token
  refreshToken : Token
deriving DecidableEq, Repr

/-- POST /signup: one existence lookup against both fields; on a hit, 400
with a message chosen by comparing the stored email to the raw request email;
otherwise create the user, save (hashing the password), issue tokens, push
the refresh token, save again, and answer 201 with the serialized user. -/
def signup (env : Env) (db : List User) (now salt newId : Nat)
    (username email : String) (password : BStr) (firstName lastName : String) :
    HttpOutcome AuthSuccess × List User :=
  match findByEmailOrUsername db email username with
  | some existing =>
      (.err 400 (if existing.email == email then "Email already registered"
                 else "Username already taken"), db)
  | none =>
      let u0 := newUser newId username email password firstName lastName
      let u1 := User.save env salt u0
      let pair := generateTokens env now u1.id
      let u2 := { u1 with refreshTokens :=
                    u1.refreshTokens ++ [{ token := pair.refreshToken, createdAt := now }] }
      let u3 := User.save env salt u2
      (.ok { user := u3.toJSON, accessToken := pair.accessToken
             refreshToken := pair.refreshToken }, db ++ [u3])

/-- POST /login: find by email; a missing account and a failed hash comparison
answer the same 401 Invalid credentials; only then is the active flag checked
(401 Account deactivated); on success issue a pair, append the refresh token,
save, and answer with the serialized user and the pair. -/
def login (env : Env) (db : List User) (now salt : Nat)
    (email : String) (password : BStr) :
    HttpOutcome AuthSuccess × List User :=
  match findByEmail db email with
  | none => (.err 401 "Invalid credentials", db)
  | some user =>
      if user.comparePassword password then
        if user.isActive then
          let pair := generateTokens env now user.id
          let u1 := { user with refreshTokens :=
                        user.refreshTokens ++ [{ token := pair.refreshToken, createdAt := now }] }
          let u2 := User.save env salt u1
          (.ok { user := u2.toJSON, accessToken := pair.accessToken
                 refreshToken := pair.refreshToken }, updateById db u2)
        else (.err 401 "Account deactivated", db)
      else (.err 401 "Invalid credentials", db)

/-- Modelled from the spec: the express error-handler middleware
(middleware/errorHandler, required by the server file but absent from the
source tree) receives the exception thrown by jwt.verify and surfaces any
verification failure of the refresh token as the 403 InvalidToken response
of the interface table. -/
def jwtVerifyFailureResponse : HttpOutcome TokenPair :=
  .err 403 "Invalid refresh token"

/-- POST /refresh-token: 401 when no token is supplied; jwt.verify (failure
handled by the error middleware); resolve the account by the embedded id;
403 when the account is gone or the exact token string is absent from its
refreshTokens; otherwise issue a new pair, drop the presented token, append
the new refresh token, save, and answer with the new pair. -/
def refresh (env : Env) (db : List User) (now salt : Nat)
    (refreshToken : Option Token) :
    HttpOutcome TokenPair × List User :=
  match refreshToken with
  | none => (.err 401 "Refresh token required", db)
  | some rt =>
      match jwtVerify rt env.jwtRefreshSecret now with
      | none => (jwtVerifyFailureResponse, db)
      | some uid =>
          match findById db uid with
          | none => (.err 403 "Invalid refresh token", db)
          | some user =>
              if user.refreshTokens.any fun e => e.token == rt then
                let pair := generateTokens env now user.id
                let u1 := { user with refreshTokens :=
                              (user.refreshTokens.filter fun e => e.token != rt) ++
                                [{ token := pair.refreshToken, createdAt := now }] }
                let u2 := User.save env salt u1
                (.ok pair, updateById db u2)
              else (.err 403 "Invalid refresh token", db)

/-- POST /logout (authenticated): refetch the account by the authenticated
id, 404 when it no longer resolves; with a token in the body remove exactly
the entries carrying that token string, otherwise clear the whole
refreshTokens array; save and answer 200. -/
def logout (env : Env) (db : List User) (salt : Nat) (authUserId : Nat)
    (refreshToken : Option Token) :
    HttpOutcome String × List User :=
  match findById db authUserId with
  | none => (.err 404 "User not found", db)
  | some user =>
      let u1 :=
        match refreshToken with
        | some rt => { user with refreshTokens :=
                         user.refreshTokens.filter fun e => e.token != rt }
        | none => { user with refreshTokens := [] }
      let u2 := User.save env salt u1
      (.ok "Logged out successfully", updateById db u2)

/-! ### Concrete store contents used by the witnesses and counterexamples -/

/-- Concrete configuration. -/
def env0 : Env :=
  { jwtAccessSecret := 11, jwtRefreshSecret := 22
    jwtAccessExpiresIn := 10, jwtRefreshExpiresIn := 100, bcryptRounds := 12 }

/-- A refresh token for user 1 issued at time 0 under the refresh secret. -/
def t0 : Token := .signed 1 0 100 22

/-- A second, distinct refresh token for user 1. -/
def tB : Token := .signed 1 1 101 22

/-- A refresh token that is already expired at any time past 3. -/
def tExpired : Token := .signed 1 0 3 22

/-- A token signed with the access secret instead of the refresh secret. -/
def tWrongKey : Token := .signed 1 0 100 11

/-- A malformed token string. -/
def tMal : Token := .malformed "zz"

/-- A stored active user holding the refresh token t0. -/
def user0 : User :=
  { id := 1, username := "alice", email := "a@x.com"
    password := .hashed 12 7 (.raw "pw"), firstName := "A", lastName := "B"
    role := "user", isActive := true
    refreshTokens := [{ token := t0, createdAt := 0 }]
    passwordModified := false }

/-- The same account with the active flag cleared. -/
def userInactive : User := { user0 with isActive := false }

/-- An account holding the two distinct refresh tokens t0 and tB. -/
def userAB : User :=
  { user0 with refreshTokens := [{ token := t0, createdAt := 0 }, { token := tB, createdAt := 1 }] }

/-- The account document as persisted by a successful signup: setters applied,
password hashed exactly once, the fresh refresh token as sole entry. -/
def signupUser (env : Env) (now salt newId : Nat) (un em : String) (pw : BStr)
    (f l : String) : User :=
  { id := newId
    username := trimSetter un
    email := lowerString em
    password := .hashed env.bcryptRounds salt pw
    firstName := trimSetter f
    lastName := trimSetter l
    role := "user"
    isActive := true
    refreshTokens := [{ token := (generateTokens env now newId).refreshToken, createdAt := now }]
    passwordModified := false }

/-- The account document as persisted by a successful login: the fresh refresh
token appended, then the save hook (which does not rehash). -/
def loginUser (env : Env) (now salt : Nat) (v : User) : User :=
  User.save env salt { v with refreshTokens :=
    v.refreshTokens ++ [{ token := (generateTokens env now v.id).refreshToken, createdAt := now }] }

/-! ### Helper lemmas about the store and the save hook -/

theorem User.save_refreshTokens (env : Env) (salt : Nat) (u : User) :
    (User.save env salt u).refreshTokens = u.refreshTokens := by
  unfold User.save; split <;> rfl

theorem User.save_id (env : Env) (salt : Nat) (u : User) :
    (User.save env salt u).id = u.id := by
  unfold User.save; split <;> rfl

theorem User.save_of_unmodified (env : Env) (salt : Nat) (u : User)
    (h : u.passwordModified = false) : User.save env salt u = u := by
  simp [User.save, h]

theorem findById_updateById (db : List User) (u w : User)
    (h : findById db u.id = some u) (hw : w.id = u.id) :
    findById (updateById db w) u.id = some w := by
  unfold findById updateById at *
  induction db with
  | nil => simp at h
  | cons v tl ih =>
      rw [List.map_cons]
      by_cases hv : (v.id == u.id) = true
      · rw [List.find?_cons_of_pos tl hv] at h
        have hvu : v = u := Option.some.inj h
        have hcond : (v.id == w.id) = true := by simp [hvu, hw]
        rw [if_pos hcond]
        have hpw : (w.id == u.id) = true := by simp [hw]
        rw [List.find?_cons_of_pos (p := fun x : User => x.id == u.id) _ hpw]
      · rw [List.find?_cons_of_neg tl hv] at h
        have hvne : v.id ≠ u.id := by simpa using hv
        have hvw : ¬((v.id == w.id) = true) := by simp [hw, hvne]
        rw [if_neg hvw]
        rw [List.find?_cons_of_neg (p := fun x : User => x.id == u.id) _ hv]
        exact ih h

theorem any_token_filter_append (l : List RefreshTokenEntry) (t : Token)
    (x : RefreshTokenEntry) (hx : x.token ≠ t) :
    ((l.filter fun e => e.token != t) ++ [x]).any (fun e => e.token == t) = false := by
  rw [List.any_append]
  have h₁ : (l.filter fun e => e.token != t).any (fun e => e.token == t) = false := by
    rw [List.any_filter, List.any_eq_false]
    intro e _
    simp
  have h₂ : ([x].any fun e => e.token == t) = false := by
    simp [hx]
  simp [h₁, h₂]

/-- C1: for an account holding refresh token t, a successful refresh(t) call
answers with the pair generated at that instant, stores the account with t
removed and exactly the newly issued refresh token appended, and a second
refresh call presenting the same token value t fails with 403 Invalid refresh
token: each refresh token is usable exactly once. -/
theorem refresh_rotation_single_use
    (env : Env) (db : List User) (now salt now2 salt2 : Nat) (t : Token) (user : User)
    (hfind : findById db user.id = some user)
    (hver : jwtVerify t env.jwtRefreshSecret now = some user.id)
    (hmem : user.refreshTokens.any (fun e => e.token == t) = true)
    (hfresh : (generateTokens env now user.id).refreshToken ≠ t)
    (hver2 : jwtVerify t env.jwtRefreshSecret now2 = some user.id) :
    (refresh env db now salt (some t)).1 = .ok (generateTokens env now user.id) ∧
    (∃ w, findById (refresh env db now salt (some t)).2 user.id = some w ∧
      w.refreshTokens = (user.refreshTokens.filter fun e => e.token != t) ++
        [{ token := (generateTokens env now user.id).refreshToken, createdAt := now }]) ∧
    (refresh env (refresh env db now salt (some t)).2 now2 salt2 (some t)).1 =
      .err 403 "Invalid refresh token" := by
  have hr : refresh env db now salt (some t) =
      (.ok (generateTokens env now user.id),
        updateById db (User.save env salt
          { user with refreshTokens :=
              (user.refreshTokens.filter fun e => e.token != t) ++
                [{ token := (generateTokens env now user.id).refreshToken, createdAt := now }] })) := by
    simp [refresh, hver, hfind, hmem]
  set w := User.save env salt
      { user with refreshTokens :=
          (user.refreshTokens.filter fun e => e.token != t) ++
            [{ token := (generateTokens env now user.id).refreshToken, createdAt := now }] } with hwdef
  have hwid : w.id = user.id := by rw [hwdef, User.save_id]
  have hwrt : w.refreshTokens =
      (user.refreshTokens.filter fun e => e.token != t) ++
        [{ token := (generateTokens env now user.id).refreshToken, createdAt := now }] := by
    rw [hwdef, User.save_refreshTokens]
  have hfind2 : findById (refresh env db now salt (some t)).2 user.id = some w := by
    rw [hr]
    exact findById_updateById db user w hfind hwid
  refine ⟨by rw [hr], ⟨w, hfind2, hwrt⟩, ?_⟩
  have hnomem : w.refreshTokens.any (fun e => e.token == t) = false := by
    rw [hwrt]
    exact any_token_filter_append _ _ _ hfresh
  rw [hr]
  have hfind2b : findById (updateById db w) user.id = some w :=
    findById_updateById db user w hfind hwid
  simp [refresh, hver2, hwid, hfind2b, hnomem]

/-- Witness for C1 at a concrete store. -/
theorem refresh_rotation_single_use_witness :
    (refresh env0 [user0] 5 9 (some t0)).1 = .ok (generateTokens env0 5 user0.id) ∧
    (∃ w, findById (refresh env0 [user0] 5 9 (some t0)).2 user0.id = some w ∧
      w.refreshTokens = (user0.refreshTokens.filter fun e => e.token != t0) ++
        [{ token := (generateTokens env0 5 user0.id).refreshToken, createdAt := 5 }]) ∧
    (refresh env0 (refresh env0 [user0] 5 9 (some t0)).2 6 9 (some t0)).1 =
      .err 403 "Invalid refresh token" :=
  refresh_rotation_single_use env0 [user0] 5 9 6 9 t0 user0 (by decide) (by decide)
    (by decide) (by decide) (by decide)

/-- C2: login answers the identical generic 401 Invalid credentials both when
no account carries the email and when the hash comparison fails; with matching
credentials on a deactivated account it answers 401 Account deactivated, the
active-flag check running only after the credential match. -/
theorem login_generic_error_and_deactivation
    (env : Env) (db : List User) (now salt : Nat) (email : String) (password : BStr) :
    (findByEmail db email = none →
      (login env db now salt email password).1 = .err 401 "Invalid credentials") ∧
    (∀ u, findByEmail db email = some u → u.comparePassword password = false →
      (login env db now salt email password).1 = .err 401 "Invalid credentials") ∧
    (∀ u, findByEmail db email = some u → u.comparePassword password = true →
      u.isActive = false →
      (login env db now salt email password).1 = .err 401 "Account deactivated") := by
  refine ⟨?_, ?_, ?_⟩
  · intro h; simp [login, h]
  · intro u h hc; simp [login, h, hc]
  · intro u h hc hi; simp [login, h, hc, hi]

/-- Witness for C2: unknown email, wrong password, and a deactivated account
with correct credentials. -/
theorem login_generic_error_and_deactivation_witness :
    (login env0 [] 0 9 "a@x.com" (.raw "pw")).1 = .err 401 "Invalid credentials" ∧
    (login env0 [user0] 0 9 "a@x.com" (.raw "wrong")).1 = .err 401 "Invalid credentials" ∧
    (login env0 [userInactive] 0 9 "a@x.com" (.raw "pw")).1 = .err 401 "Account deactivated" :=
  ⟨(login_generic_error_and_deactivation env0 [] 0 9 "a@x.com" (.raw "pw")).1 (by decide),
   (login_generic_error_and_deactivation env0 [user0] 0 9 "a@x.com" (.raw "wrong")).2.1
     user0 (by decide) (by decide),
   (login_generic_error_and_deactivation env0 [userInactive] 0 9 "a@x.com" (.raw "pw")).2.2
     userInactive (by decide) (by decide) (by decide)⟩

/-- C3: refresh with no token in the body answers 401 Refresh token required;
any signature or expiry verification failure of a supplied token answers 403
Invalid refresh token. -/
theorem refresh_missing_and_invalid_token
    (env : Env) (db : List User) (now salt : Nat) :
    ((refresh env db now salt none).1 = .err 401 "Refresh token required") ∧
    (∀ t, jwtVerify t env.jwtRefreshSecret now = none →
      (refresh env db now salt (some t)).1 = .err 403 "Invalid refresh token") := by
  refine ⟨rfl, ?_⟩
  intro t h
  simp [refresh, h, jwtVerifyFailureResponse]

/-- Witness for C3: a missing token, a malformed token, an expired token and
a token signed with the wrong key. -/
theorem refresh_missing_and_invalid_token_witness :
    ((refresh env0 [user0] 5 9 none).1 = .err 401 "Refresh token required") ∧
    ((refresh env0 [user0] 5 9 (some tMal)).1 = .err 403 "Invalid refresh token") ∧
    ((refresh env0 [user0] 5 9 (some tExpired)).1 = .err 403 "Invalid refresh token") ∧
    ((refresh env0 [user0] 5 9 (some tWrongKey)).1 = .err 403 "Invalid refresh token") :=
  ⟨(refresh_missing_and_invalid_token env0 [user0] 5 9).1,
   (refresh_missing_and_invalid_token env0 [user0] 5 9).2 tMal (by decide),
   (refresh_missing_and_invalid_token env0 [user0] 5 9).2 tExpired (by decide),
   (refresh_missing_and_invalid_token env0 [user0] 5 9).2 tWrongKey (by decide)⟩

theorem signup_success_eq (env : Env) (db : List User) (now salt newId : Nat)
    (un em : String) (pw : BStr) (f l : String)
    (hfree : findByEmailOrUsername db em un = none) :
    signup env db now salt newId un em pw f l =
      (.ok { user := (signupUser env now salt newId un em pw f l).toJSON
             accessToken := (generateTokens env now newId).accessToken
             refreshToken := (generateTokens env now newId).refreshToken },
       db ++ [signupUser env now salt newId un em pw f l]) := by
  simp [signup, hfree, signupUser, newUser, User.save, bcryptHash]

/-- C4 counterexample: the store holds the account of user0 under the
lowercased email and the username alice; a signup presenting the same email in
different case and a fresh username collides on the email, yet the answer
carries the username message. -/
theorem signup_duplicate_message_cex :
    lowerString "A@X.com" = user0.email ∧
    (∀ u ∈ [user0], u.username ≠ trimSetter "bob") ∧
    (signup env0 [user0] 0 9 2 "bob" "A@X.com" (.raw "secret") "B" "C").1 =
      .err 400 "Username already taken" := by
  decide

/-- C4 amended: a signup whose single disjunctive lookup hits an existing
account fails with 400 and creates no account; the message is the email one
exactly when the stored email equals the raw request email string, and the
username one otherwise (so a case-variant email collision reports the
username message). -/
theorem signup_duplicate_no_create
    (env : Env) (db : List User) (now salt newId : Nat)
    (un em : String) (pw : BStr) (f l : String) (ex : User)
    (h : findByEmailOrUsername db em un = some ex) :
    signup env db now salt newId un em pw f l =
      (.err 400 (if ex.email == em then "Email already registered"
                 else "Username already taken"), db) := by
  simp [signup, h]

/-- Witness for the amended C4: a username collision. -/
theorem signup_duplicate_no_create_witness :
    signup env0 [user0] 0 9 2 "alice" "b@x.com" (.raw "secret") "B" "C" =
      (.err 400 (if user0.email == "b@x.com" then "Email already registered"
                 else "Username already taken"), [user0]) :=
  signup_duplicate_no_create env0 [user0] 0 9 2 "alice" "b@x.com" (.raw "secret")
    "B" "C" user0 (by decide)

/-- C5: after a successful registration, a second registration whose email
agrees up to letter case, or whose username agrees, fails with a 400 duplicate
response. -/
theorem signup_second_duplicate_fails
    (env : Env) (db : List User) (now salt newId now2 salt2 newId2 : Nat)
    (un1 em1 : String) (pw1 : BStr) (f1 l1 un2 em2 : String) (pw2 : BStr) (f2 l2 : String)
    (hfree : findByEmailOrUsername db em1 un1 = none)
    (hdup : lowerString em2 = lowerString em1 ∨ trimSetter un2 = trimSetter un1) :
    ∃ m, (signup env (signup env db now salt newId un1 em1 pw1 f1 l1).2 now2 salt2 newId2
            un2 em2 pw2 f2 l2).1 = .err 400 m ∧
      (m = "Email already registered" ∨ m = "Username already taken") := by
  rw [signup_success_eq env db now salt newId un1 em1 pw1 f1 l1 hfree]
  set w := signupUser env now salt newId un1 em1 pw1 f1 l1 with hw
  have hpw : (w.email == lowerString em2 || w.username == trimSetter un2) = true := by
    rcases hdup with h | h
    · simp [hw, signupUser, h]
    · simp [hw, signupUser, h]
  have hsome : (findByEmailOrUsername (db ++ [w]) em2 un2).isSome := by
    apply List.find?_isSome.mpr
    exact ⟨w, by simp, hpw⟩
  obtain ⟨ex, hexq⟩ := Option.isSome_iff_exists.mp hsome
  refine ⟨if ex.email == em2 then "Email already registered" else "Username already taken",
    ?_, ?_⟩
  · simp [signup, hexq]
  · by_cases h : ex.email == em2 <;> simp [h]

/-- Witness for C5: register alice, then register with the same email in
different case, and separately with the same username. -/
theorem signup_second_duplicate_fails_witness :
    (∃ m, (signup env0 (signup env0 [] 0 9 1 "alice" "a@x.com" (.raw "pw") "A" "B").2
        1 9 2 "bob" "A@X.com" (.raw "pw2") "C" "D").1 = .err 400 m ∧
      (m = "Email already registered" ∨ m = "Username already taken")) ∧
    (∃ m, (signup env0 (signup env0 [] 0 9 1 "alice" "a@x.com" (.raw "pw") "A" "B").2
        1 9 2 "alice" "c@x.com" (.raw "pw2") "C" "D").1 = .err 400 m ∧
      (m = "Email already registered" ∨ m = "Username already taken")) :=
  ⟨signup_second_duplicate_fails env0 [] 0 9 1 1 9 2 "alice" "a@x.com" (.raw "pw") "A" "B"
      "bob" "A@X.com" (.raw "pw2") "C" "D" (by decide) (Or.inl (by decide)),
   signup_second_duplicate_fails env0 [] 0 9 1 1 9 2 "alice" "a@x.com" (.raw "pw") "A" "B"
      "alice" "c@x.com" (.raw "pw2") "C" "D" (by decide) (Or.inr (by decide))⟩

/-- C6: logout presenting token B answers 200, stores the account with exactly
the entries carrying B removed and every other field unchanged, and a distinct
outstanding token A still refreshes successfully afterwards; logout presenting
a token absent from the collection also answers 200 and leaves the stored
account unchanged (idempotent). -/
theorem logout_removes_only_target
    (env : Env) (db : List User) (salt now salt2 : Nat) (uid : Nat) (user : User) (A B : Token)
    (hfind : findById db uid = some user)
    (hpm : user.passwordModified = false)
    (hAB : A ≠ B)
    (hA : user.refreshTokens.any (fun e => e.token == A) = true)
    (hverA : jwtVerify A env.jwtRefreshSecret now = some uid) :
    (logout env db salt uid (some B)).1 = .ok "Logged out successfully" ∧
    findById (logout env db salt uid (some B)).2 uid = some
      { user with refreshTokens := user.refreshTokens.filter fun e => e.token != B } ∧
    (∃ p, (refresh env (logout env db salt uid (some B)).2 now salt2 (some A)).1 = .ok p) ∧
    (∀ C, user.refreshTokens.any (fun e => e.token == C) = false →
      (logout env db salt uid (some C)).1 = .ok "Logged out successfully" ∧
      findById (logout env db salt uid (some C)).2 uid = some user) := by
  have hid : user.id = uid := by
    unfold findById at hfind
    simpa using List.find?_some hfind
  have hfind' : findById db user.id = some user := by rw [hid]; exact hfind
  set u1 : User := { user with refreshTokens := user.refreshTokens.filter fun e => e.token != B }
    with hu1
  have hu1pm : u1.passwordModified = false := hpm
  have hlog : logout env db salt uid (some B) = (.ok "Logged out successfully", updateById db u1) := by
    simp [logout, hfind, User.save_of_unmodified _ _ _ hu1pm, hu1]
  have hfindu1 : findById (updateById db u1) uid = some u1 := by
    rw [← hid]
    exact findById_updateById db user u1 hfind' (by rw [hu1])
  refine ⟨by rw [hlog], by rw [hlog]; exact hfindu1, ?_, ?_⟩
  · have hmemA : u1.refreshTokens.any (fun e => e.token == A) = true := by
      rw [hu1]
      rw [List.any_filter, List.any_eq_true]
      obtain ⟨e, he, hea⟩ := List.any_eq_true.mp hA
      refine ⟨e, he, ?_⟩
      have heA : e.token = A := by simpa using hea
      simp [heA, hAB]
    have hidu1 : u1.id = uid := hid
    rw [hlog]
    refine ⟨generateTokens env now u1.id, ?_⟩
    simp [refresh, hverA, hfindu1, hmemA]
  · intro C hC
    have hfilter : user.refreshTokens.filter (fun e => e.token != C) = user.refreshTokens := by
      rw [List.filter_eq_self]
      intro a ha
      have : ¬(a.token == C) = true := List.any_eq_false.mp hC a ha
      simpa using this
    have hlogC : logout env db salt uid (some C) = (.ok "Logged out successfully", updateById db user) := by
      simp [logout, hfind, hfilter, User.save_of_unmodified _ _ _ hpm]
    refine ⟨by rw [hlogC], ?_⟩
    rw [hlogC, ← hid]
    exact findById_updateById db user user hfind' rfl

/-- Witness for C6 on the account holding the two tokens t0 and tB; the
absent-token case is taken at the token tMal, which the account never held. -/
theorem logout_removes_only_target_witness :
    (logout env0 [userAB] 9 1 (some tB)).1 = .ok "Logged out successfully" ∧
    findById (logout env0 [userAB] 9 1 (some tB)).2 1 = some
      { userAB with refreshTokens := userAB.refreshTokens.filter fun e => e.token != tB } ∧
    (∃ p, (refresh env0 (logout env0 [userAB] 9 1 (some tB)).2 5 9 (some t0)).1 = .ok p) ∧
    ((logout env0 [userAB] 9 1 (some tMal)).1 = .ok "Logged out successfully" ∧
      findById (logout env0 [userAB] 9 1 (some tMal)).2 1 = some userAB) :=
  have h := logout_removes_only_target env0 [userAB] 9 5 9 1 userAB t0 tB (by decide)
    (by decide) (by decide) (by decide) (by decide)
  ⟨h.1, h.2.1, h.2.2.1, h.2.2.2 tMal (by decide)⟩

theorem login_success_eq (env : Env) (db : List User) (now salt : Nat)
    (em : String) (pw : BStr) (v : User)
    (hf : findByEmail db em = some v) (hc : v.comparePassword pw = true)
    (ha : v.isActive = true) :
    login env db now salt em pw =
      (.ok { user := (loginUser env now salt v).toJSON
             accessToken := (generateTokens env now v.id).accessToken
             refreshToken := (generateTokens env now v.id).refreshToken },
       updateById db (loginUser env now salt v)) := by
  simp [login, loginUser, hf, hc, ha]

/-- C8: the serialized projection never carries the credential: toJSON ignores
the password and refreshTokens paths, and every successful signup or login
response carries exactly the toJSON projection of a stored account. -/
theorem auth_responses_hide_credential
    (u : User) (p : BStr) (rts : List RefreshTokenEntry) :
    User.toJSON { u with password := p, refreshTokens := rts } = User.toJSON u ∧
    (∀ (env : Env) (db : List User) (now salt newId : Nat) (un em : String) (pw : BStr)
       (f l : String) (pay : AuthSuccess) (db2 : List User),
      signup env db now salt newId un em pw f l = (.ok pay, db2) →
      ∃ w, w ∈ db2 ∧ pay.user = w.toJSON) ∧
    (∀ (env : Env) (db : List User) (now salt : Nat) (em : String) (pw : BStr)
       (pay : AuthSuccess) (db2 : List User),
      login env db now salt em pw = (.ok pay, db2) →
      ∃ w, w ∈ db2 ∧ pay.user = w.toJSON) := by
  refine ⟨rfl, ?_, ?_⟩
  · intro env db now salt newId un em pw f l pay db2 h
    cases hf : findByEmailOrUsername db em un with
    | some ex => simp [signup, hf] at h
    | none =>
        rw [signup_success_eq env db now salt newId un em pw f l hf, Prod.mk.injEq] at h
        obtain ⟨hpay, hdb⟩ := h
        refine ⟨signupUser env now salt newId un em pw f l, ?_, ?_⟩
        · rw [← hdb]; simp
        · rw [← HttpOutcome.ok.inj hpay]
  · intro env db now salt em pw pay db2 h
    cases hf : findByEmail db em with
    | none => simp [login, hf] at h
    | some v =>
        by_cases hc : v.comparePassword pw = true
        · by_cases ha : v.isActive = true
          · rw [login_success_eq env db now salt em pw v hf hc ha, Prod.mk.injEq] at h
            obtain ⟨hpay, hdb⟩ := h
            refine ⟨loginUser env now salt v, ?_, ?_⟩
            · rw [← hdb]
              have hv : v ∈ db := by
                unfold findByEmail at hf
                exact List.mem_of_find?_eq_some hf
              have hid2 : (loginUser env now salt v).id = v.id := by
                rw [loginUser, User.save_id]
              have himg : (fun x : User => if x.id == (loginUser env now salt v).id
                  then loginUser env now salt v else x) v = loginUser env now salt v := by
                simp [hid2]
              unfold updateById
              have := List.mem_map_of_mem (fun x : User =>
                if x.id == (loginUser env now salt v).id then loginUser env now salt v else x) hv
              rw [himg] at this
              exact this
            · rw [← HttpOutcome.ok.inj hpay]
          · simp [login, hf, hc, ha] at h
        · simp [login, hf, hc] at h

/-- Witness for C8: a concrete signup and a concrete login, with the projection
of the stored account returned in each response. -/
theorem auth_responses_hide_credential_witness :
    User.toJSON { user0 with password := .raw "x", refreshTokens := [] } = User.toJSON user0 ∧
    (∃ w, w ∈ [signupUser env0 0 9 1 "alice" "a@x.com" (.raw "pw") "A" "B"] ∧
      (AuthSuccess.mk (signupUser env0 0 9 1 "alice" "a@x.com" (.raw "pw") "A" "B").toJSON
        (generateTokens env0 0 1).accessToken (generateTokens env0 0 1).refreshToken).user =
        w.toJSON) ∧
    (∃ w, w ∈ updateById [user0] (loginUser env0 3 9 user0) ∧
      (AuthSuccess.mk (loginUser env0 3 9 user0).toJSON
        (generateTokens env0 3 1).accessToken (generateTokens env0 3 1).refreshToken).user =
        w.toJSON) :=
  have h := auth_responses_hide_credential user0 (.raw "x") []
  ⟨h.1,
   h.2.1 env0 [] 0 9 1 "alice" "a@x.com" (.raw "pw") "A" "B" _ _ (by decide),
   h.2.2 env0 [user0] 3 9 "a@x.com" (.raw "pw") _ _ (by decide)⟩

/-- C9 (implicit): the refresh handler never consults the active flag: an
account with isActive false but an outstanding unexpired refresh token still
refreshes successfully, while login with correct credentials on the same
account fails with Account deactivated. -/
theorem refresh_ignores_active_flag
    (env : Env) (db : List User) (now salt : Nat) (t : Token) (user : User)
    (em : String) (pw : BStr)
    (hfind : findById db user.id = some user)
    (hver : jwtVerify t env.jwtRefreshSecret now = some user.id)
    (hmem : user.refreshTokens.any (fun e => e.token == t) = true)
    (hinactive : user.isActive = false)
    (hemail : findByEmail db em = some user)
    (hcmp : user.comparePassword pw = true) :
    (refresh env db now salt (some t)).1 = .ok (generateTokens env now user.id) ∧
    (login env db now salt em pw).1 = .err 401 "Account deactivated" := by
  constructor
  · simp [refresh, hver, hfind, hmem]
  · simp [login, hemail, hcmp, hinactive]

/-- Witness for C9 on the deactivated account still holding t0. -/
theorem refresh_ignores_active_flag_witness :
    (refresh env0 [userInactive] 5 9 (some t0)).1 = .ok (generateTokens env0 5 userInactive.id) ∧
    (login env0 [userInactive] 5 9 "a@x.com" (.raw "pw")).1 = .err 401 "Account deactivated" :=
  refresh_ignores_active_flag env0 [userInactive] 5 9 t0 userInactive "a@x.com" (.raw "pw")
    (by decide) (by decide) (by decide) (by decide) (by decide) (by decide)

/-- C10 (implicit): the pre-save hook hashes only a modified password, so the
second save of registration stores a once-hashed credential that
comparePassword still accepts, and any save of an unmodified document,
including one whose refreshTokens were rewritten by refresh, logout or a
token append, leaves the stored password untouched. -/
theorem password_hashed_once_and_stable
    (env : Env) (db : List User) (now salt newId : Nat) (un em : String) (p : String)
    (f l : String)
    (hfree : findByEmailOrUsername db em un = none) :
    (∃ w pay, signup env db now salt newId un em (.raw p) f l = (.ok pay, db ++ [w]) ∧
      w.password = .hashed env.bcryptRounds salt (.raw p) ∧
      w.comparePassword (.raw p) = true) ∧
    (∀ (u : User) (s : Nat), u.passwordModified = false → User.save env s u = u) ∧
    (∀ (u : User) (s : Nat) (rts : List RefreshTokenEntry), u.passwordModified = false →
      (User.save env s { u with refreshTokens := rts }).password = u.password ∧
      ∀ c, (User.save env s { u with refreshTokens := rts }).comparePassword c =
        u.comparePassword c) := by
  refine ⟨?_, ?_, ?_⟩
  · refine ⟨signupUser env now salt newId un em (.raw p) f l, _,
      signup_success_eq env db now salt newId un em (.raw p) f l hfree, rfl, ?_⟩
    simp [User.comparePassword, bcryptCompare, signupUser]
  · exact fun u s h => User.save_of_unmodified env s u h
  · intro u s rts h
    have h2 : ({ u with refreshTokens := rts } : User).passwordModified = false := h
    rw [User.save_of_unmodified _ _ _ h2]
    exact ⟨rfl, fun c => rfl⟩

/-- Witness for C10: a concrete registration, then saves of unmodified
documents with and without a rewritten token array. -/
theorem password_hashed_once_and_stable_witness :
    (∃ w pay, signup env0 [] 0 9 1 "alice" "a@x.com" (.raw "pw") "A" "B" = (.ok pay, [] ++ [w]) ∧
      w.password = .hashed env0.bcryptRounds 9 (.raw "pw") ∧
      w.comparePassword (.raw "pw") = true) ∧
    User.save env0 3 user0 = user0 ∧
    (User.save env0 3 { user0 with refreshTokens := [] }).password = user0.password ∧
    (User.save env0 3 { user0 with refreshTokens := [] }).comparePassword (.raw "pw") =
      user0.comparePassword (.raw "pw") :=
  have h := password_hashed_once_and_stable env0 [] 0 9 1 "alice" "a@x.com" "pw" "A" "B"
    (by decide)
  ⟨h.1, h.2.1 user0 3 (by decide), (h.2.2 user0 3 [] (by decide)).1,
   (h.2.2 user0 3 [] (by decide)).2 (.raw "pw")⟩
